import Mathlib

set_option linter.unusedVariables false

/-!
Shallow embedding of the LewanLib bus-servo driver (src/lewanlib) in Lean 4.

Conventions of the embedding:
* Python integers are `Nat`/`Int`; Python real numbers (`types.Real`) are `ℚ`
  (float rounding is not modelled; the arithmetic here is exact).
* A `bytes` value is a `List Nat`, each element a byte value.
* Fallible Python code (code that can raise) is embedded as `Except String`,
  the error string abbreviating the exception raised by the source.
* Reading from the serial connection is modelled by a byte stream `List Nat`:
  `read n` yields `stream.take n`, which is shorter than `n` exactly when the
  underlying read would time out and return fewer bytes.
-/

namespace LewanLib

/-- Python `int(round(x))`: round half to even (banker's rounding), as Python's
builtin `round` does.  On non-ties this agrees with Mathlib's `round`
(nearest integer). -/
def pyRound (q : ℚ) : ℤ :=
  if q - ⌊q⌋ = 1/2 then (if Even ⌊q⌋ then ⌊q⌋ else ⌊q⌋ + 1) else round q

/-- Python `int(x)` on a real number: truncation toward zero. -/
def pyTrunc (q : ℚ) : ℤ :=
  if 0 ≤ q then ⌊q⌋ else ⌈q⌉

/-- Python `str.lower()` (ASCII case folding, which is all the mode strings
use): lower-case every character. -/
def pyLower (s : String) : String := ⟨s.data.map Char.toLower⟩

/-- Python true division `a / b`, which raises `ZeroDivisionError` when `b = 0`. -/
def pyDiv (a b : ℚ) : Except String ℚ :=
  if b = 0 then .error "ZeroDivisionError: division by zero" else .ok (a / b)

/-! ## constants.py -/

def MIN_ID : ℤ := 0
def MAX_ID : ℤ := 253
def BROADCAST_ID : ℤ := 254
def MIN_ANGLE_DEGREES : ℚ := 0
def MAX_ANGLE_DEGREES : ℚ := 240
/-- `_PACKET_HEADER = b'\x55\x55'` -/
def PACKET_HEADER : List Nat := [0x55, 0x55]

def SERVO_MOVE_TIME_WRITE : ℤ := 1
def SERVO_MOVE_TIME_WAIT_WRITE : ℤ := 7
def SERVO_OR_MOTOR_MODE_WRITE : ℤ := 29
def SERVO_LOAD_OR_UNLOAD_WRITE : ℤ := 31
def SERVO_LOAD_OR_UNLOAD_READ : ℤ := 32
def SERVO_LED_CTRL_WRITE : ℤ := 33
def SERVO_LED_CTRL_READ : ℤ := 34
def SERVO_POS_READ : ℤ := 28

/-! ## utils.py -/

/-- `utils.truncate_angle`: `min(max(MIN_ANGLE_DEGREES, angle_degrees), MAX_ANGLE_DEGREES)`. -/
def truncate_angle (angle_degrees : ℚ) : ℚ :=
  min (max MIN_ANGLE_DEGREES angle_degrees) MAX_ANGLE_DEGREES

/-- `utils._calculate_checksum`:
`checksum = servo_id + length + command + sum(parameters); return ~checksum & 0xFF`.
Python's `~x` on an arbitrary-precision int is `-x - 1`, and `& 0xFF` of a
(possibly negative) int is its nonnegative residue mod 256. -/
def calculate_checksum (servo_id length command : Nat) (parameters : List Nat) : Nat :=
  ((-(servo_id + length + command + parameters.sum : ℤ) - 1) % 256).toNat

/-- `utils._degrees_to_ticks`: `int(float(degrees * 1000 / MAX_ANGLE_DEGREES))`
(the `float` cast is modelled as exact; `int` truncates toward zero). -/
def degrees_to_ticks (degrees : ℚ) : ℤ :=
  pyTrunc (degrees * 1000 / MAX_ANGLE_DEGREES)

/-- `utils._ticks_to_degrees`: `ticks * MAX_ANGLE_DEGREES / 1000`. -/
def ticks_to_degrees (ticks : ℤ) : ℚ :=
  ticks * MAX_ANGLE_DEGREES / 1000

/-! ## types.py -/

/-- `types._ServoPacket`: NamedTuple `(servo_id, command, parameters)`. -/
structure ServoPacket where
  servo_id : Nat
  command : Nat
  parameters : List Nat
  deriving DecidableEq, Repr

/-! ## bus.py: packet framing and transport -/

/-- `ServoBus._send_packet` up to the serial write: validates `servo_id` and
`command`, then builds the frame
`[Header(2)] [ID] [Length] [Command] [Parameters...] [Checksum]` with
`length = 3 + len(parameters)`.  Returns the byte sequence that is written to
the serial connection (`bytearray.append` would reject a length above 255,
hence the guard on `length`). -/
def send_packet (servo_id command : ℤ) (parameters : List Nat) :
    Except String (List Nat) :=
  if servo_id < MIN_ID ∨ BROADCAST_ID < servo_id then
    .error "servo_id must be in range [0, 254]"
  else if command < 0 ∨ 255 < command then
    .error "command must be in range [0, 255]"
  else if 255 < 3 + parameters.length then
    .error "byte must be in range(0, 256)"
  else
    let length := 3 + parameters.length
    .ok (PACKET_HEADER ++ [servo_id.toNat, length, command.toNat] ++ parameters ++
      [calculate_checksum servo_id.toNat length command.toNat parameters])

/-- `ServoBus._receive_packet` on a byte stream: reads the 2-byte header with
a single `read(2)` and raises `ServoBusError` when it is not `b'\x55\x55'`
(there is no resynchronization scan in this code); then unpacks
`servo_id, length, command` from `read(3)` (a short read raises `ValueError`),
reads `length - 3` parameter bytes, reads the checksum byte
(`read(1)[0]` raises `IndexError` on a short read), and verifies the checksum
when `verify` is set. -/
def receive_packet (verify : Bool) (stream : List Nat) : Except String ServoPacket :=
  if stream.take 2 ≠ PACKET_HEADER then
    .error "Expected header b'UU'"
  else
    let rest := stream.drop 2
    match rest.take 3 with
    | [servo_id, length, command] =>
      let param_count := length - 3
      let parameters := (rest.drop 3).take param_count
      let rest2 := (rest.drop 3).drop param_count
      match rest2.take 1 with
      | [checksum] =>
        if verify ∧ checksum ≠ calculate_checksum servo_id length command parameters then
          .error "Checksum failed for received packet!"
        else
          .ok ⟨servo_id, command, parameters⟩
      | _ => .error "IndexError: index out of range"
    | _ => .error "ValueError: not enough values to unpack"

/-- `ServoBus._send_and_receive_packet`: `_send_packet` then
`_receive_packet` (the echoed request bytes are assumed already discarded, so
`stream` holds the response bytes), then verifies that the response's
`servo_id` and `command` equal the request's, raising `ServoBusError`
otherwise.  This code performs a single attempt: there is no retry loop. -/
def send_and_receive_packet (verify : Bool) (servo_id command : ℤ)
    (parameters : List Nat) (stream : List Nat) : Except String ServoPacket :=
  match send_packet servo_id command parameters with
  | .error e => .error e
  | .ok _ =>
    match receive_packet verify stream with
    | .error e => .error e
    | .ok response =>
      if (response.servo_id : ℤ) ≠ servo_id then
        .error "Received packet servo ID does not match sent packet servo ID."
      else if (response.command : ℤ) ≠ command then
        .error "Received packet command does not match sent packet command."
      else
        .ok response

/-- Reads the fixed fields, parameters and checksum of a frame whose 2-byte
header has already been consumed (shared body of the resynchronizing decoder). -/
def read_frame_body (verify : Bool) (rest : List Nat) : Except String ServoPacket :=
  match rest.take 3 with
  | [servo_id, length, command] =>
    let param_count := length - 3
    let parameters := (rest.drop 3).take param_count
    let rest2 := (rest.drop 3).drop param_count
    match rest2.take 1 with
    | [checksum] =>
      if verify ∧ checksum ≠ calculate_checksum servo_id length command parameters then
        .error "Checksum failed for received packet!"
      else
        .ok ⟨servo_id, command, parameters⟩
    | _ => .error "IndexError: index out of range"
  | _ => .error "ValueError: not enough values to unpack"

/-- Modelled from the spec: the byte-at-a-time resynchronizing frame decoder
that `src/lewanlib/bus.py` lacks (`scripts/test_bus_reliability.py` exercises
it, with a noise ceiling of 2048 bytes).  Scan the stream one byte at a time;
on reading `0x55` read a second byte: if it is `0x55` the header is synced and
the frame body follows; otherwise re-examine the mismatched byte as a possible
new header start.  Exhausting the noise ceiling (or the stream, i.e. a read
timeout) fails with "Timed out waiting for packet header". -/
def decode_resync (verify : Bool) : Nat → List Nat → Except String ServoPacket
  | _, [] => .error "Timed out waiting for packet header"
  | 0, _ => .error "Timed out waiting for packet header"
  | fuel + 1, b :: rest =>
    if b = 0x55 then
      match rest with
      | [] => .error "Timed out waiting for packet header"
      | b2 :: rest2 =>
        if b2 = 0x55 then read_frame_body verify rest2
        else decode_resync verify fuel (b2 :: rest2)
    else decode_resync verify fuel rest

/-- Modelled from the spec: the retry wrapper around the send+receive cycle
that `src/lewanlib/bus.py` lacks (`scripts/test_bus_reliability.py` constructs
`ServoBus(serial_conn=..., retry_count=3)` and asserts the retry).  Each
attempt consumes the next byte stream from `attempts`; a failed attempt is
retried while budget remains, and the last failure is re-raised when the
budget is exhausted. -/
def send_and_receive_retry (verify : Bool) (servo_id command : ℤ)
    (parameters : List Nat) : Nat → List (List Nat) → Except String ServoPacket
  | _, [] => .error "Timed out waiting for packet header"
  | 0, _ => .error "retry budget exhausted"
  | budget + 1, stream :: more =>
    match send_and_receive_packet verify servo_id command parameters stream with
    | .ok response => .ok response
    | .error e => if budget = 0 then .error e
      else send_and_receive_retry verify servo_id command parameters budget more

/-! ## bus.py: command set -/

/-- `constants._2_UNSIGNED_SHORTS_STRUCT.pack` (`'<HH'`): two unsigned 16-bit
little-endian fields; `struct.error` when a value is outside [0, 65535]. -/
def pack_2_unsigned_shorts (a b : ℤ) : Except String (List Nat) :=
  if a < 0 ∨ 65535 < a then .error "struct.error: H format requires 0 <= number <= 65535"
  else if b < 0 ∨ 65535 < b then .error "struct.error: H format requires 0 <= number <= 65535"
  else .ok [a.toNat % 256, a.toNat / 256, b.toNat % 256, b.toNat / 256]

/-- `constants._1_UNSIGNED_CHAR_1_UNSIGNED_SHORT_STRUCT.pack` (`'<bxh'`): a
signed byte, a zero pad byte, and a signed 16-bit little-endian field
(two's complement); `struct.error` when a value is out of range. -/
def pack_flag_speed (flag s : ℤ) : Except String (List Nat) :=
  if flag < -128 ∨ 127 < flag then .error "struct.error: b format requires -128 <= number <= 127"
  else if s < -32768 ∨ 32767 < s then .error "struct.error: h format requires -32768 <= number <= 32767"
  else .ok [(flag % 256).toNat, 0, (s % 65536).toNat % 256, (s % 65536).toNat / 256]

/-- The parameter bytes built by `ServoBus._move_time_write`:
`angle = _degrees_to_ticks(truncate_angle(angle_degrees))`,
`time_ms = int(round(min(max(0, time_s), 30) * 1000))`,
packed with `'<HH'`. -/
def move_time_write_params (angle_degrees time_s : ℚ) : Except String (List Nat) :=
  pack_2_unsigned_shorts (degrees_to_ticks (truncate_angle angle_degrees))
    (pyRound (min (max 0 time_s) 30 * 1000))

/-- `ServoBus._move_time_write` up to the serial write: validates the command,
converts the angle and time, packs the parameters and builds the frame sent by
`_send_packet`. -/
def move_time_write_packet (servo_id command : ℤ) (angle_degrees time_s : ℚ) :
    Except String (List Nat) :=
  if ¬(command = SERVO_MOVE_TIME_WRITE ∨ command = SERVO_MOVE_TIME_WAIT_WRITE) then
    .error "Command must be either 1 or 7"
  else
    match move_time_write_params angle_degrees time_s with
    | .error e => .error e
    | .ok params => send_packet servo_id command params

/-- `ServoBus.move_speed_write`: reads the current position (modelled by the
`current_angle` argument), computes `time_s = abs(angle_degrees -
current_angle) / speed_dps` (Python division: `ZeroDivisionError` when
`speed_dps = 0`), and delegates to `move_time_write`. -/
def move_speed_write (servo_id : ℤ) (current_angle angle_degrees speed_dps : ℚ) :
    Except String (List Nat) :=
  match pyDiv |angle_degrees - current_angle| speed_dps with
  | .error e => .error e
  | .ok time_s => move_time_write_packet servo_id SERVO_MOVE_TIME_WRITE angle_degrees time_s

/-- `ServoBus.mode_write` up to the serial write: validates the mode string
(case-insensitively) and, for motor mode, requires a speed and clamps
`int(round(speed))` to [-1000, 1000]; servo mode forces speed 0.  The error
branches return before any frame is built or sent. -/
def mode_write (servo_id : ℤ) (mode : String) (speed : Option ℚ) :
    Except String (List Nat) :=
  if ¬(pyLower mode = "motor" ∨ pyLower mode = "servo") then
    .error "mode must be either motor or servo"
  else if pyLower mode = "motor" then
    match speed with
    | none => .error "speed must be specified if mode is motor"
    | some sp =>
      match pack_flag_speed 1 (min (max (-1000) (pyRound sp)) 1000) with
      | .error e => .error e
      | .ok params => send_packet servo_id SERVO_OR_MOTOR_MODE_WRITE params
  else
    match pack_flag_speed 0 0 with
    | .error e => .error e
    | .ok params => send_packet servo_id SERVO_OR_MOTOR_MODE_WRITE params

/-- `ServoBus.set_powered`: sends `b'\x01'` (enable) or `b'\x00'` (disable)
with no validation of its own beyond `_send_packet`'s range check
([0, 254], which admits the broadcast address 254). -/
def set_powered (servo_id : ℤ) (powered : Bool) : Except String (List Nat) :=
  send_packet servo_id SERVO_LOAD_OR_UNLOAD_WRITE (if powered then [0x01] else [0x00])

/-- `ServoBus.is_powered`: validates `servo_id` against `[MIN_ID, MAX_ID]` =
[0, 253] (raising `ValueError` before any bytes are sent), then performs the
round trip and returns `bool(response.parameters[0])`. -/
def is_powered (servo_id : ℤ) (stream : List Nat) : Except String Bool :=
  if servo_id < MIN_ID ∨ MAX_ID < servo_id then
    .error "servo_id must be in range [0, 253]"
  else
    match send_and_receive_packet true servo_id SERVO_LOAD_OR_UNLOAD_READ [] stream with
    | .error e => .error e
    | .ok response =>
      match response.parameters with
      | [] => .error "IndexError: index out of range"
      | b :: _ => .ok (decide (b ≠ 0))

/-- `ServoBus.led_ctrl_write`: sends `b'\x00'` when `state` is true and
`b'\x01'` when it is false (inverted polarity). -/
def led_ctrl_write (servo_id : ℤ) (state : Bool) : Except String (List Nat) :=
  send_packet servo_id SERVO_LED_CTRL_WRITE (if state then [0x00] else [0x01])

/-- The result computation of `ServoBus.led_ctrl_read`:
`response.parameters == b'\x00'`. -/
def led_ctrl_decode (response : ServoPacket) : Bool :=
  decide (response.parameters = [0x00])

/-- `ServoBus.led_ctrl_read`: round trip followed by `led_ctrl_decode`. -/
def led_ctrl_read (servo_id : ℤ) (stream : List Nat) : Except String Bool :=
  match send_and_receive_packet true servo_id SERVO_LED_CTRL_READ [] stream with
  | .error e => .error e
  | .ok response => .ok (led_ctrl_decode response)

end LewanLib

namespace LewanLib

set_option maxRecDepth 8192 in
/-- The complement-mod-256 value `255 - b` of a byte `b` is its bitwise
complement `b ^^^ 255`. -/
theorem byte_compl (b : Fin 256) : 255 - b.val = b.val ^^^ 255 := by
  revert b; decide

/-- **C3** The checksum function returns the bitwise complement of
`servo_id + length + command + sum(parameters)` masked to the low 8 bits;
it is deterministic, and its result always lies in [0, 255]. -/
theorem checksum_spec (servo_id length command : Nat) (parameters : List Nat) :
    calculate_checksum servo_id length command parameters =
      ((servo_id + length + command + parameters.sum) % 256) ^^^ 255 ∧
    calculate_checksum servo_id length command parameters ≤ 255 ∧
    (∀ (a l c : Nat) (p : List Nat), a = servo_id → l = length → c = command →
      p = parameters →
      calculate_checksum a l c p = calculate_checksum servo_id length command parameters) := by
  have key : calculate_checksum servo_id length command parameters =
      255 - ((servo_id + length + command + parameters.sum) % 256) := by
    unfold calculate_checksum
    omega
  refine ⟨?_, ?_, ?_⟩
  · rw [key]
    have hlt : (servo_id + length + command + parameters.sum) % 256 < 256 :=
      Nat.mod_lt _ (by norm_num)
    exact byte_compl ⟨_, hlt⟩
  · rw [key]; omega
  · intro a l c p ha hl hc hp
    rw [ha, hl, hc, hp]

/-- Witness for C3 at concrete inputs. -/
theorem checksum_spec_witness :
    calculate_checksum 1 5 28 [16, 0] = ((1 + 5 + 28 + [16, 0].sum) % 256) ^^^ 255 ∧
    calculate_checksum 254 4 31 [1] = calculate_checksum 254 4 31 [1] := by
  exact ⟨(checksum_spec 1 5 28 [16, 0]).1,
    (checksum_spec 254 4 31 [1]).2.2 254 4 31 [1] rfl rfl rfl rfl⟩

/-- **C5** For every `deg` in [0, 240], the round trip
`ticks_to_degrees (degrees_to_ticks deg)` differs from `deg` by at most one
tick-equivalent, 240/1000 = 0.24 degrees. -/
theorem roundtrip_within_one_tick (deg : ℚ) (h0 : 0 ≤ deg) (h240 : deg ≤ 240) :
    |ticks_to_degrees (degrees_to_ticks deg) - deg| ≤ 240 / 1000 := by
  have hx : (0 : ℚ) ≤ deg * 1000 / MAX_ANGLE_DEGREES := by
    unfold MAX_ANGLE_DEGREES; positivity
  have htr : degrees_to_ticks deg = ⌊deg * 1000 / MAX_ANGLE_DEGREES⌋ := by
    unfold degrees_to_ticks pyTrunc
    rw [if_pos hx]
  have h1 : (⌊deg * 1000 / MAX_ANGLE_DEGREES⌋ : ℚ) ≤ deg * 1000 / MAX_ANGLE_DEGREES :=
    Int.floor_le _
  have h2 : deg * 1000 / MAX_ANGLE_DEGREES < ⌊deg * 1000 / MAX_ANGLE_DEGREES⌋ + 1 :=
    Int.lt_floor_add_one _
  rw [htr]
  unfold ticks_to_degrees MAX_ANGLE_DEGREES at *
  rw [abs_le]
  constructor <;> nlinarith

/-- **C1** The frame decoder does not resynchronize: on the stream
`FF FF 55 AA FF` followed by a well-formed frame `55 55 01 05 1C 10 00 CD`,
`_receive_packet` raises `ServoBusError` at the first two noise bytes instead
of scanning byte-at-a-time, while the resynchronizing decoder required by the
spec (and by `scripts/test_bus_reliability.py`) recovers the embedded frame. -/
theorem receive_packet_rejects_noise :
    receive_packet true [0xFF, 0xFF, 0x55, 0xAA, 0xFF, 0x55, 0x55, 1, 5, 28, 16, 0, 205] =
      .error "Expected header b'UU'" ∧
    decode_resync true 2048 [0xFF, 0xFF, 0x55, 0xAA, 0xFF, 0x55, 0x55, 1, 5, 28, 16, 0, 205] =
      .ok ⟨1, 28, [16, 0]⟩ := by
  exact ⟨rfl, rfl⟩

/-- **C2** The send-and-receive operation performs a single attempt: when the
first read times out (empty stream) it raises `ServoBusError` instead of
retrying, while the retry wrapper required by the spec (and by
`scripts/test_bus_reliability.py`, budget 3) succeeds when the second attempt
returns a valid, checksum-correct frame matching the request. -/
theorem send_and_receive_does_not_retry :
    send_and_receive_packet true 1 28 [0] [] = .error "Expected header b'UU'" ∧
    send_and_receive_retry true 1 28 [0] 3
      [[], [0x55, 0x55, 1, 5, 28, 16, 0, 205]] = .ok ⟨1, 28, [16, 0]⟩ := by
  exact ⟨rfl, rfl⟩

/-- **C4** For every request and every received response frame,
`_send_and_receive_packet` raises an error exactly when the response's
`servo_id` differs from the request's or the response's `command` differs from
the request's; when both match it returns the response packet. -/
theorem response_match_check (verify : Bool) (servo_id command : ℤ)
    (parameters stream : List Nat) (response : ServoPacket) (frame : List Nat)
    (hsend : send_packet servo_id command parameters = .ok frame)
    (hrecv : receive_packet verify stream = .ok response) :
    (send_and_receive_packet verify servo_id command parameters stream = .ok response ↔
      ((response.servo_id : ℤ) = servo_id ∧ (response.command : ℤ) = command)) ∧
    (((response.servo_id : ℤ) ≠ servo_id ∨ (response.command : ℤ) ≠ command) →
      ∃ e, send_and_receive_packet verify servo_id command parameters stream = .error e) := by
  unfold send_and_receive_packet
  rw [hsend, hrecv]
  by_cases h1 : (response.servo_id : ℤ) = servo_id <;>
    by_cases h2 : (response.command : ℤ) = command <;>
    simp [h1, h2]

/-- Witness for C4: request `(servo_id, command) = (1, 28)` with a matching
response stream. -/
theorem response_match_check_witness :
    send_and_receive_packet true 1 28 [0] [0x55, 0x55, 1, 5, 28, 16, 0, 205] =
      .ok ⟨1, 28, [16, 0]⟩ :=
  ((response_match_check true 1 28 [0] [0x55, 0x55, 1, 5, 28, 16, 0, 205]
    ⟨1, 28, [16, 0]⟩ [0x55, 0x55, 1, 4, 28, 0, 222] rfl rfl).1).mpr ⟨rfl, rfl⟩

/-- Witness for C5 at `deg = 1`. -/
theorem roundtrip_within_one_tick_witness :
    (0 : ℚ) ≤ 1 ∧ (1 : ℚ) ≤ 240 ∧
    |ticks_to_degrees (degrees_to_ticks 1) - 1| ≤ 240 / 1000 := by
  exact ⟨by norm_num, by norm_num,
    roundtrip_within_one_tick 1 (by norm_num) (by norm_num)⟩

/-- `pyRound` maps a rational in `[lo, hi]` (integer endpoints) into `[lo, hi]`. -/
theorem pyRound_bounds (lo hi : ℤ) (q : ℚ) (hlo : (lo : ℚ) ≤ q) (hhi : q ≤ (hi : ℚ)) :
    lo ≤ pyRound q ∧ pyRound q ≤ hi := by
  unfold pyRound
  split_ifs with ht he
  · exact ⟨Int.le_floor.mpr hlo, by exact_mod_cast (Int.floor_le q).trans hhi⟩
  · constructor
    · have := Int.le_floor.mpr hlo; omega
    · have hq : q = (⌊q⌋ : ℚ) + 1/2 := by linarith
      have : (⌊q⌋ : ℚ) < (hi : ℚ) := by rw [hq] at hhi; linarith
      have : ⌊q⌋ < hi := by exact_mod_cast this
      omega
  · rw [round_eq]
    constructor
    · exact Int.le_floor.mpr (by linarith)
    · have : ⌊q + 1/2⌋ < hi + 1 := Int.floor_lt.mpr (by push_cast; linarith)
      omega

/-- `pyRound` is the identity on integers. -/
theorem pyRound_intCast (n : ℤ) : pyRound (n : ℚ) = n := by
  unfold pyRound
  rw [Int.floor_intCast]
  rw [if_neg (by norm_num), round_intCast]

/-- `truncate_angle` lands in `[0, 240]`. -/
theorem truncate_angle_bounds (a : ℚ) : 0 ≤ truncate_angle a ∧ truncate_angle a ≤ 240 := by
  unfold truncate_angle MIN_ANGLE_DEGREES MAX_ANGLE_DEGREES
  exact ⟨le_min (le_max_left 0 a) (by norm_num), min_le_right _ _⟩

/-- `degrees_to_ticks` maps `[0, 240]` into `[0, 1000]`. -/
theorem degrees_to_ticks_bounds (d : ℚ) (h0 : 0 ≤ d) (h1 : d ≤ 240) :
    0 ≤ degrees_to_ticks d ∧ degrees_to_ticks d ≤ 1000 := by
  unfold degrees_to_ticks pyTrunc MAX_ANGLE_DEGREES
  have hx : (0 : ℚ) ≤ d * 1000 / 240 := by positivity
  rw [if_pos hx]
  constructor
  · exact Int.le_floor.mpr (by push_cast; linarith)
  · have : d * 1000 / 240 ≤ 1000 := by linarith
    have := (Int.floor_le (d * 1000 / 240)).trans this
    exact_mod_cast this

/-- The `'<HH'` packing in `move_time_write_params` succeeds whenever both
fields are in `[0, 65535]`. -/
theorem move_time_write_params_ok (a t : ℚ) :
    ∃ ps, move_time_write_params a t = .ok ps := by
  obtain ⟨hta, htb⟩ := truncate_angle_bounds a
  obtain ⟨hk0, hk1⟩ := degrees_to_ticks_bounds (truncate_angle a) hta htb
  have hms := pyRound_bounds 0 30000 (min (max 0 t) 30 * 1000)
    (by positivity)
    (by
      have : min (max 0 t) 30 ≤ 30 := min_le_right _ _
      push_cast
      linarith)
  unfold move_time_write_params pack_2_unsigned_shorts
  rw [if_neg (by omega), if_neg (by omega)]
  exact ⟨_, rfl⟩

/-- **C9** For every real input angle, `truncate_angle` yields a value in
`[0, 240]`; `_degrees_to_ticks` maps any value in `[0, 240]` to an integer in
`[0, 1000]`; therefore the unsigned-16-bit (`'<HH'`) struct packing in
`_move_time_write` never fails, for any real angle and time arguments. -/
theorem move_time_write_packing_safe :
    (∀ a : ℚ, 0 ≤ truncate_angle a ∧ truncate_angle a ≤ 240) ∧
    (∀ d : ℚ, 0 ≤ d → d ≤ 240 → 0 ≤ degrees_to_ticks d ∧ degrees_to_ticks d ≤ 1000) ∧
    (∀ a t : ℚ, ∃ ps, move_time_write_params a t = .ok ps) :=
  ⟨truncate_angle_bounds, degrees_to_ticks_bounds, move_time_write_params_ok⟩

/-- Witness for C9 at `d = 120` and `(a, t) = (300, 5)`. -/
theorem move_time_write_packing_safe_witness :
    (0 ≤ degrees_to_ticks 120 ∧ degrees_to_ticks 120 ≤ 1000) ∧
    ∃ ps, move_time_write_params 300 5 = .ok ps :=
  ⟨move_time_write_packing_safe.2.1 120 (by norm_num) (by norm_num),
    move_time_write_packing_safe.2.2 300 5⟩

/-- **C7** `move_speed_write` computes the duration as
`|angle_degrees - current_angle| / speed_dps` and delegates to
`move_time_write`; at `speed_dps = 0` it fails with a division error and no
move command is built. -/
theorem move_speed_write_division (servo_id : ℤ) (current_angle angle_degrees : ℚ) :
    move_speed_write servo_id current_angle angle_degrees 0 =
      .error "ZeroDivisionError: division by zero" ∧
    (∀ speed_dps : ℚ, speed_dps ≠ 0 →
      move_speed_write servo_id current_angle angle_degrees speed_dps =
        move_time_write_packet servo_id SERVO_MOVE_TIME_WRITE angle_degrees
          (|angle_degrees - current_angle| / speed_dps)) := by
  constructor
  · unfold move_speed_write pyDiv
    rw [if_pos rfl]
  · intro sp h
    unfold move_speed_write pyDiv
    rw [if_neg h]

/-- Witness for C7: a concrete nonzero speed (`move_speed_write` with a
current position of 0°, a target of 120° and 60°/s yields the same packet as
`move_time_write` with a 2 s duration). -/
theorem move_speed_write_division_witness :
    move_speed_write 1 0 120 60 = .ok [85, 85, 1, 7, 1, 244, 1, 208, 7, 42] := by
  have h := (move_speed_write_division 1 0 120).2 60 (by norm_num)
  rw [h, show |(120 : ℚ) - 0| / 60 = 2 by norm_num]
  have h1 : truncate_angle 120 = 120 := by
    norm_num [truncate_angle, MIN_ANGLE_DEGREES, MAX_ANGLE_DEGREES]
  have h2 : degrees_to_ticks 120 = 500 := by
    unfold degrees_to_ticks pyTrunc MAX_ANGLE_DEGREES
    rw [if_pos (by norm_num), show (120 : ℚ) * 1000 / 240 = ((500 : ℤ) : ℚ) by norm_num,
      Int.floor_intCast]
  have h3 : pyRound (min (max 0 (2 : ℚ)) 30 * 1000) = 2000 := by
    rw [show min (max 0 (2 : ℚ)) 30 * 1000 = ((2000 : ℤ) : ℚ) by norm_num, pyRound_intCast]
  unfold move_time_write_packet move_time_write_params
  rw [if_neg (by decide), h1, h2, h3]
  rfl

/-- **C6** `mode_write` with mode "motor" and speed 2000 encodes the speed
clamped to 1000 (bytes `E8 03`) in the sent parameters; with mode "servo" it
encodes speed 0 regardless of any supplied speed; and it fails with
`ValueError`, building no frame, when the mode is neither "servo" nor "motor"
(case-insensitively) or when the mode is "motor" and the speed is absent. -/
theorem mode_write_spec :
    mode_write 1 "motor" (some 2000) = .ok [85, 85, 1, 7, 29, 1, 0, 232, 3, 238] ∧
    (∀ speed : Option ℚ, mode_write 1 "servo" speed =
      .ok [85, 85, 1, 7, 29, 0, 0, 0, 0, 218]) ∧
    (∀ (servo_id : ℤ) (mode : String) (speed : Option ℚ),
      pyLower mode ≠ "motor" → pyLower mode ≠ "servo" →
      mode_write servo_id mode speed = .error "mode must be either motor or servo") ∧
    (∀ (servo_id : ℤ) (mode : String), pyLower mode = "motor" →
      mode_write servo_id mode none = .error "speed must be specified if mode is motor") := by
  refine ⟨?_, ?_, ?_, ?_⟩
  · have hpr : pyRound (2000 : ℚ) = 2000 := by
      rw [show (2000 : ℚ) = ((2000 : ℤ) : ℚ) by norm_num, pyRound_intCast]
    unfold mode_write
    rw [if_neg (by decide), if_pos (by decide)]
    simp only [hpr]
    rfl
  · intro speed
    unfold mode_write
    rw [if_neg (by decide), if_neg (by decide)]
    rfl
  · intro servo_id mode speed h1 h2
    simp [mode_write, h1, h2]
  · intro servo_id mode h
    simp [mode_write, h]

/-- Witness for C6: an invalid mode string and a missing motor speed. -/
theorem mode_write_spec_witness :
    mode_write 1 "wheel" none = .error "mode must be either motor or servo" ∧
    mode_write 2 "MOTOR" none = .error "speed must be specified if mode is motor" :=
  ⟨mode_write_spec.2.2.1 1 "wheel" none (by decide) (by decide),
    mode_write_spec.2.2.2 2 "MOTOR" (by decide)⟩

/-- **C8** `led_ctrl_read` decodes to true exactly when the raw response
parameter byte is `0x00`, and `led_ctrl_write` encodes `state = true` as byte
`0x00` and `state = false` as byte `0x01` (inverted polarity). -/
theorem led_ctrl_polarity :
    (∀ servo_id command b : Nat,
      led_ctrl_decode ⟨servo_id, command, [b]⟩ = true ↔ b = 0) ∧
    (∀ response : ServoPacket,
      led_ctrl_decode response = true ↔ response.parameters = [0x00]) ∧
    led_ctrl_write 1 true = .ok [85, 85, 1, 4, 33, 0, 217] ∧
    led_ctrl_write 1 false = .ok [85, 85, 1, 4, 33, 1, 216] := by
  refine ⟨?_, ?_, rfl, rfl⟩
  · intro servo_id command b
    simp [led_ctrl_decode]
  · intro response
    simp [led_ctrl_decode]

/-- **C10** `is_powered` validates `servo_id` against [0, 253] and fails with
`ValueError` before any bytes are sent when it is outside that range — in
particular for the broadcast address 254 — whereas `set_powered` accepts the
broadcast address 254 and sends the command frame. -/
theorem is_powered_validates_id :
    (∀ (servo_id : ℤ) (stream : List Nat), servo_id < 0 ∨ 253 < servo_id →
      is_powered servo_id stream = .error "servo_id must be in range [0, 253]") ∧
    (∀ stream : List Nat,
      is_powered 254 stream = .error "servo_id must be in range [0, 253]") ∧
    set_powered 254 true = .ok [85, 85, 254, 4, 31, 1, 221] := by
  refine ⟨?_, fun stream => rfl, rfl⟩
  intro servo_id stream h
  unfold is_powered MIN_ID MAX_ID
  rw [if_pos h]

/-- Witness for C10 at `servo_id = 300`. -/
theorem is_powered_validates_id_witness :
    is_powered 300 [] = .error "servo_id must be in range [0, 253]" :=
  is_powered_validates_id.1 300 [] (Or.inr (by norm_num))

end LewanLib
